import Mathlib

/-!
Verification of the State-Machine repository (state_machine.py, combinators.py,
modal_machine.py) against its natural-language specification.

The Python code is shallowly embedded: a `StateMachine` is a record of the three
transition functions `startup`/`input`/`quiesce`; a Python value
`StateTransition | None` becomes `Option (StateTransition S O)`; the optional
`state` field becomes `Option S`; the ordered `outputs` become a `List O`.
Python truthiness tests on transitions (`not transition`) become `Option`
matches (attrs instances are always truthy, so only `None` is falsy there), and
truthiness tests on the optional `state` field become `Option` matches as well.
-/

/-- Embeds `StateTransition` of state_machine.py: an optional next state plus an
ordered sequence of outputs (default `None` state, default empty outputs). -/
structure StateTransition (S O : Type) where
  state : Option S
  outputs : List O
deriving DecidableEq, Repr

/-- Embeds the `StateMachine` abstract class of state_machine.py as a record of
its three abstract methods (P, Q, R). -/
structure StateMachine (S I O : Type) where
  startup : S → Option (StateTransition S O)
  input : S → I → Option (StateTransition S O)
  quiesce : S → Option (StateTransition S O)

/-- Embeds `StateMachine._concatenate`: when both transitions are present the
result takes the second transition's state if present (`transition_2.state or
transition_1.state`), else the first's, and chains the outputs; otherwise it
returns `transition_1 or transition_2`. -/
def StateMachine.concatenate {S O : Type} :
    Option (StateTransition S O) → Option (StateTransition S O) →
    Option (StateTransition S O)
  | some t1, some t2 =>
      some { state := match t2.state with
                      | some s => some s
                      | none => t1.state,
             outputs := t1.outputs ++ t2.outputs }
  | none, t2 => t2
  | some t1, none => some t1

/-- Embeds `StateMachine._process_quiesce` exactly as written: it calls
`quiesce` once and, when that yields a transition carrying a new state,
concatenates it with ONE further plain `quiesce` call on the new state (the
final line recurses into `self.quiesce`, not into `self._process_quiesce`). -/
def StateMachine.process_quiesce {S I O : Type} (machine : StateMachine S I O)
    (state : S) : Option (StateTransition S O) :=
  match machine.quiesce state with
  | none => none
  | some t =>
      match t.state with
      | none => some t
      | some s1 => StateMachine.concatenate (some t) (machine.quiesce s1)

/-- Embeds `StateMachine.process_startup`: run `startup`, and when it yields no
transition or no new state continue quiescing from the original state,
otherwise from the transition's state, concatenating the results. -/
def StateMachine.process_startup {S I O : Type} (machine : StateMachine S I O)
    (state : S) : Option (StateTransition S O) :=
  match machine.startup state with
  | none => StateMachine.concatenate none (machine.process_quiesce state)
  | some t =>
      match t.state with
      | none => StateMachine.concatenate (some t) (machine.process_quiesce state)
      | some s1 => StateMachine.concatenate (some t) (machine.process_quiesce s1)

/-- Embeds `StateMachine.process_input`: run `input`; a result with no
transition or no new state is returned as-is, otherwise it is concatenated with
quiescing from the new state. -/
def StateMachine.process_input {S I O : Type} (machine : StateMachine S I O)
    (state : S) (inp : I) : Option (StateTransition S O) :=
  match machine.input state inp with
  | none => none
  | some t =>
      match t.state with
      | none => some t
      | some s1 => StateMachine.concatenate (some t) (machine.process_quiesce s1)

/-- Follows the spec's words (section 4.1, "Quiescing loop"), for comparison
with the code's `process_quiesce`: repeatedly call `quiesce`; a call yielding a
transition with a new state advances the state and appends its outputs; a call
yielding no transition or a transition with no new state terminates the loop,
folding that last transition into the cumulative result. The `fuel` argument
bounds the iteration; on machines that converge within `fuel` steps the result
is fuel-independent. -/
def specQuiesceLoop {S I O : Type} (machine : StateMachine S I O) :
    Nat → S → Option (StateTransition S O)
  | 0, state => machine.quiesce state
  | fuel + 1, state =>
      match machine.quiesce state with
      | none => none
      | some t =>
          match t.state with
          | none => some t
          | some s1 =>
              StateMachine.concatenate (some t) (specQuiesceLoop machine fuel s1)

/-- A step machine used to exercise the quiescing loop: from state `s < 4`,
`quiesce` moves to `s + 1` emitting `[s]`; from state `4` it yields a
transition with no state change, the loop's terminating shape. Startup and
input do nothing. -/
def stepM : StateMachine Nat Unit Nat where
  startup _ := none
  input _ _ := none
  quiesce s := if s < 4 then some ⟨some (s + 1), [s]⟩ else some ⟨none, []⟩

/-- C1: the public entry points do NOT iterate `quiesce` to a fixpoint. On
`stepM` (which reaches a no-state-change transition after three steps from
state 1, so the claim's termination hypothesis holds), `process_startup` stops
after only two `quiesce` calls, returning state 3 and outputs `[1, 2]`, even
though `quiesce 3` still yields a new state; the spec's iterated fold returns
state 4 and outputs `[1, 2, 3]`. The source's `_process_quiesce` recurses into
plain `quiesce` instead of into itself, contradicting the P/R docstrings in the
same file, which require iterating until a null transition. -/
theorem C1_process_quiesce_truncated :
    StateMachine.process_startup stepM 1 = some ⟨some 3, [1, 2]⟩ ∧
    specQuiesceLoop stepM 5 1 = some ⟨some 4, [1, 2, 3]⟩ ∧
    specQuiesceLoop stepM 9 1 = some ⟨some 4, [1, 2, 3]⟩ ∧
    stepM.quiesce 3 = some ⟨some 4, [3]⟩ := by
  refine ⟨?_, ?_, ?_, ?_⟩ <;> decide

/-- One call made against a machine's three-operation surface: `startup`, an
`input` with its event, or `quiesce`. Used to state properties over sequences
of calls. -/
inductive Call (I : Type) where
  | startCall : Call I
  | inputCall : I → Call I
  | quiesceCall : Call I

/-- Dispatch one call to the corresponding operation of a machine. -/
def StateMachine.applyCall {S I O : Type} (machine : StateMachine S I O)
    (state : S) : Call I → Option (StateTransition S O)
  | .startCall => machine.startup state
  | .inputCall i => machine.input state i
  | .quiesceCall => machine.quiesce state

/-- Thread a sequence of calls through a machine the way a driver does: a call
returning a transition with a new state advances the state, outputs accumulate
in call order; the result is the final state and the collected outputs. -/
def StateMachine.runCalls {S I O : Type} (machine : StateMachine S I O)
    (state : S) : List (Call I) → S × List O
  | [] => (state, [])
  | c :: cs =>
      match machine.applyCall state c with
      | none => machine.runCalls state cs
      | some t =>
          let s1 := t.state.getD state
          let r := machine.runCalls s1 cs
          (r.1, t.outputs ++ r.2)

/-- Helper mirroring the `for machine in self._machines` loops of
`UnionMachine`: the first machine whose operation yields a transition wins;
`none` when no machine yields one. -/
def firstTransition {S I O : Type} (machines : List (StateMachine S I O))
    (f : StateMachine S I O → Option (StateTransition S O)) :
    Option (StateTransition S O) :=
  match machines with
  | [] => none
  | m :: rest =>
      match f m with
      | some t => some t
      | none => firstTransition rest f

/-- Embeds `UnionMachine` of combinators.py: each operation returns the first
wrapped machine's non-null transition, in order, else `none`. -/
def UnionMachine {S I O : Type} (machines : List (StateMachine S I O)) :
    StateMachine S I O where
  startup state := firstTransition machines (fun m => m.startup state)
  input state inp := firstTransition machines (fun m => m.input state inp)
  quiesce state := firstTransition machines (fun m => m.quiesce state)

/-- Embeds the methods of `SupressInputMachine` of combinators.py: `startup`
and `quiesce` delegate unchanged; `input` drops inputs satisfying the
predicate. (The source misspells the constructor as `__int__`; see C9.) -/
def SupressInputMachine {S I O : Type} (machine : StateMachine S I O)
    (ignore_input : I → Bool) : StateMachine S I O where
  startup state := machine.startup state
  input state inp :=
    if ignore_input inp then none else machine.input state inp
  quiesce state := machine.quiesce state

/-- Embeds `StoppingMachine` of combinators.py: each operation first evaluates
the predicate on the current state; if it holds the operation returns no
transition, otherwise it delegates to the wrapped machine. -/
def StoppingMachine {S I O : Type} (machine : StateMachine S I O)
    (untilP : S → Bool) : StateMachine S I O where
  startup state := if untilP state then none else machine.startup state
  input state inp := if untilP state then none else machine.input state inp
  quiesce state := if untilP state then none else machine.quiesce state

/-- Embeds `InitialInputMachine` of combinators.py. Its one mutable field, the
one-shot `_initialized` flag (false at construction), is made explicit: each
operation returns the updated instance alongside its transition. -/
structure InitialInputMachine (S I O : Type) where
  machine : StateMachine S I O
  initial_input : I
  initialized : Bool

/-- Embeds `InitialInputMachine._initialize`: on the first call flip the flag
and run the wrapped machine's full input-processing path (`process_input`) on
the bootstrap input; afterwards yield nothing. -/
def InitialInputMachine.initialStep {S I O : Type}
    (self : InitialInputMachine S I O) (state : S) :
    InitialInputMachine S I O × Option (StateTransition S O) :=
  if self.initialized then (self, none)
  else ({ self with initialized := true },
        self.machine.process_input state self.initial_input)

/-- Embeds `InitialInputMachine.startup`: the (possible) bootstrap transition
is concatenated before the delegated `startup` on the same state argument. -/
def InitialInputMachine.startup {S I O : Type}
    (self : InitialInputMachine S I O) (state : S) :
    InitialInputMachine S I O × Option (StateTransition S O) :=
  let r := self.initialStep state
  (r.1, StateMachine.concatenate r.2 (self.machine.startup state))

/-- Embeds `InitialInputMachine.input`: bootstrap transition first, then the
delegated `input` on the same state argument. -/
def InitialInputMachine.input {S I O : Type}
    (self : InitialInputMachine S I O) (state : S) (inp : I) :
    InitialInputMachine S I O × Option (StateTransition S O) :=
  let r := self.initialStep state
  (r.1, StateMachine.concatenate r.2 (self.machine.input state inp))

/-- Embeds `InitialInputMachine.quiesce`: bootstrap transition first, then the
delegated `quiesce` on the same state argument. -/
def InitialInputMachine.quiesce {S I O : Type}
    (self : InitialInputMachine S I O) (state : S) :
    InitialInputMachine S I O × Option (StateTransition S O) :=
  let r := self.initialStep state
  (r.1, StateMachine.concatenate r.2 (self.machine.quiesce state))

/-- Dispatch one call to the corresponding `InitialInputMachine` operation,
returning the updated instance and the transition. -/
def InitialInputMachine.applyCall {S I O : Type}
    (self : InitialInputMachine S I O) (state : S) :
    Call I → InitialInputMachine S I O × Option (StateTransition S O)
  | .startCall => self.startup state
  | .inputCall i => self.input state i
  | .quiesceCall => self.quiesce state

/-- Run a sequence of calls, each with a caller-chosen state argument, against
an `InitialInputMachine`, threading the instance (and so its one-shot flag)
through and collecting every call's transition in order. -/
def InitialInputMachine.runCalls {S I O : Type}
    (self : InitialInputMachine S I O) :
    List (S × Call I) →
      InitialInputMachine S I O × List (Option (StateTransition S O))
  | [] => (self, [])
  | (s, c) :: rest =>
      let r := self.applyCall s c
      let rr := r.1.runCalls rest
      (rr.1, r.2 :: rr.2)

/-- C2: the concatenation rule. Merging two present transitions takes the later
state if present else the earlier one, and appends the outputs in order;
merging `none` with a transition yields that transition unchanged, in either
position; and concatenation is associative, so every grouping of three
transitions agrees (last non-absent state wins, outputs concatenate in call
order). -/
theorem C2_concatenate_rules_assoc {S O : Type}
    (a b : StateTransition S O) (t t1 t2 t3 : Option (StateTransition S O)) :
    StateMachine.concatenate (some a) (some b) =
      some { state := if b.state.isSome then b.state else a.state,
             outputs := a.outputs ++ b.outputs } ∧
    StateMachine.concatenate none t = t ∧
    StateMachine.concatenate t none = t ∧
    StateMachine.concatenate (StateMachine.concatenate t1 t2) t3 =
      StateMachine.concatenate t1 (StateMachine.concatenate t2 t3) := by
  refine ⟨?_, ?_, ?_, ?_⟩
  · obtain ⟨bs, bo⟩ := b
    cases bs <;> simp [StateMachine.concatenate]
  · rfl
  · cases t <;> rfl
  · cases t1 with
    | none => cases t2 <;> cases t3 <;> rfl
    | some u1 =>
      cases t2 with
      | none => cases t3 <;> rfl
      | some u2 =>
        cases t3 with
        | none => rfl
        | some u3 =>
          obtain ⟨s2, o2⟩ := u2
          obtain ⟨s3, o3⟩ := u3
          cases s2 <;> cases s3 <;>
            simp [StateMachine.concatenate, List.append_assoc]

/-- Concatenating nothing on the left leaves the transition unchanged. -/
theorem concatenate_none_left {S O : Type} (t : Option (StateTransition S O)) :
    StateMachine.concatenate none t = t := rfl

/-- Running calls against an already-initialized `InitialInputMachine` is pure
delegation: every result equals the wrapped machine's and the flag stays
true. -/
theorem runCalls_after_initialized {S I O : Type}
    (machine : StateMachine S I O) (x0 : I) (l : List (S × Call I)) :
    InitialInputMachine.runCalls ⟨machine, x0, true⟩ l =
      (⟨machine, x0, true⟩, l.map fun p => machine.applyCall p.1 p.2) := by
  induction l with
  | nil => rfl
  | cons p rest ih =>
      obtain ⟨s, c⟩ := p
      cases c <;>
        simp [InitialInputMachine.runCalls, InitialInputMachine.applyCall,
          InitialInputMachine.startup, InitialInputMachine.input,
          InitialInputMachine.quiesce, InitialInputMachine.initialStep,
          StateMachine.applyCall, StateMachine.concatenate, ih]

/-- C6: the bootstrap input is injected exactly once, on the very first call,
whichever of the three operations it is. Starting from a freshly constructed
instance (flag false), the first call's transition is the wrapped machine's
full `process_input` on the bootstrap input concatenated before that call's
normal delegation, the flag flips to true, and every later call (with any state
argument) returns exactly the unwrapped machine's result with no injection. -/
theorem C6_initial_input_exactly_once {S I O : Type}
    (machine : StateMachine S I O) (x0 : I) (s : S) (c : Call I)
    (rest : List (S × Call I)) :
    InitialInputMachine.runCalls ⟨machine, x0, false⟩ ((s, c) :: rest) =
      (⟨machine, x0, true⟩,
       StateMachine.concatenate (machine.process_input s x0)
           (machine.applyCall s c)
         :: rest.map fun p => machine.applyCall p.1 p.2) := by
  cases c <;>
    simp [InitialInputMachine.runCalls, InitialInputMachine.applyCall,
      InitialInputMachine.startup, InitialInputMachine.input,
      InitialInputMachine.quiesce, InitialInputMachine.initialStep,
      StateMachine.applyCall, runCalls_after_initialized]

/-- C7: the stopping combinator freezes the machine. When the predicate holds
for the current state, every operation returns no transition (whatever the
wrapped machine would have done); hence any sequence of driver calls from such
a state leaves the state unchanged and produces no outputs. When the predicate
is false, each operation delegates unchanged. -/
theorem C7_stopping_freeze {S I O : Type} (machine : StateMachine S I O)
    (p : S → Bool) (s : S) (c : Call I) (cs : List (Call I)) :
    (p s = true → (StoppingMachine machine p).applyCall s c = none) ∧
    (p s = true → (StoppingMachine machine p).runCalls s cs = (s, [])) ∧
    (p s = false →
      (StoppingMachine machine p).applyCall s c = machine.applyCall s c) := by
  have hfreeze : ∀ c' : Call I, p s = true →
      (StoppingMachine machine p).applyCall s c' = none := by
    intro c' hp
    cases c' <;> simp [StoppingMachine, StateMachine.applyCall, hp]
  refine ⟨hfreeze c, ?_, ?_⟩
  · intro hp
    induction cs with
    | nil => rfl
    | cons c' cs' ih => simp [StateMachine.runCalls, hfreeze c' hp, ih]
  · intro hp
    cases c <;> simp [StoppingMachine, StateMachine.applyCall, hp]

/-- A machine that always produces a transition, used to witness that the
combinators really override the wrapped behavior. -/
def alwaysM : StateMachine Nat Nat Nat where
  startup s := some ⟨some (s + 1), [7]⟩
  input s i := some ⟨some (s + i), [8]⟩
  quiesce s := some ⟨some (s + 1), [9]⟩

/-- Witness for C7 at a concrete machine, predicate, state and call list. -/
theorem C7_stopping_freeze_witness :
    (StoppingMachine alwaysM fun s => decide (s = 1)).runCalls 1
        [Call.startCall, Call.quiesceCall] = (1, []) ∧
    (StoppingMachine alwaysM fun s => decide (s = 1)).applyCall 2
        Call.quiesceCall = alwaysM.applyCall 2 Call.quiesceCall :=
  ⟨(C7_stopping_freeze alwaysM (fun s => decide (s = 1)) 1 Call.startCall
      [Call.startCall, Call.quiesceCall]).2.1 (by decide),
   (C7_stopping_freeze alwaysM (fun s => decide (s = 1)) 2 Call.quiesceCall
      []).2.2 (by decide)⟩

/-- If every machine's operation yields nothing, the union loop yields
nothing. -/
theorem firstTransition_eq_none {S I O : Type}
    (machines : List (StateMachine S I O))
    (f : StateMachine S I O → Option (StateTransition S O))
    (h : ∀ m ∈ machines, f m = none) : firstTransition machines f = none := by
  induction machines with
  | nil => rfl
  | cons m rest ih =>
      have hm : f m = none := h m (by simp)
      simp [firstTransition, hm]
      exact ih fun m' hm' => h m' (by simp [hm'])

/-- C8: the union combinator returns the first non-null transition in order.
If no wrapped machine produces a transition the union produces none; a head
machine that produces one wins outright for each of the three operations; when
the head produces none the rest are consulted in order; and for `[M1, M2]`
where both produce (possibly different) transitions, the result is `M1`'s --
later machines are masked, never merged. -/
theorem C8_union_first_match {S I O : Type} (m1 m2 : StateMachine S I O)
    (ms : List (StateMachine S I O)) (s : S) (x : I)
    (t1 t2 : StateTransition S O) :
    ((∀ m ∈ ms, m.startup s = none) → (UnionMachine ms).startup s = none) ∧
    ((∀ m ∈ ms, m.input s x = none) → (UnionMachine ms).input s x = none) ∧
    ((∀ m ∈ ms, m.quiesce s = none) → (UnionMachine ms).quiesce s = none) ∧
    (m1.startup s = some t1 →
      (UnionMachine (m1 :: ms)).startup s = some t1) ∧
    (m1.input s x = some t1 →
      (UnionMachine (m1 :: ms)).input s x = some t1) ∧
    (m1.quiesce s = some t1 →
      (UnionMachine (m1 :: ms)).quiesce s = some t1) ∧
    (m1.input s x = none →
      (UnionMachine (m1 :: ms)).input s x = (UnionMachine ms).input s x) ∧
    (m1.input s x = some t1 → m2.input s x = some t2 →
      (UnionMachine [m1, m2]).input s x = some t1) := by
  refine ⟨?_, ?_, ?_, ?_, ?_, ?_, ?_, ?_⟩
  · intro h; exact firstTransition_eq_none ms _ h
  · intro h; exact firstTransition_eq_none ms _ h
  · intro h; exact firstTransition_eq_none ms _ h
  · intro h; simp [UnionMachine, firstTransition, h]
  · intro h; simp [UnionMachine, firstTransition, h]
  · intro h; simp [UnionMachine, firstTransition, h]
  · intro h; simp [UnionMachine, firstTransition, h]
  · intro h1 h2; simp [UnionMachine, firstTransition, h1]

/-- A machine used as the first member of a union witness. -/
def unionA : StateMachine Nat Nat Nat where
  startup _ := some ⟨some 2, [1]⟩
  input _ _ := some ⟨some 2, [1]⟩
  quiesce _ := some ⟨some 2, [1]⟩

/-- A machine used as the second member of a union witness; it would produce a
different transition than `unionA` everywhere. -/
def unionB : StateMachine Nat Nat Nat where
  startup _ := some ⟨some 3, [2]⟩
  input _ _ := some ⟨some 3, [2]⟩
  quiesce _ := some ⟨some 3, [2]⟩

/-- Witness for C8: with both machines producing different transitions the
union's result is the first machine's, and an empty union produces none. -/
theorem C8_union_first_match_witness :
    (UnionMachine [unionA, unionB]).input 5 0 = some ⟨some 2, [1]⟩ ∧
    (UnionMachine ([] : List (StateMachine Nat Nat Nat))).input 5 0 = none :=
  ⟨(C8_union_first_match unionA unionB [unionB] 5 0 ⟨some 2, [1]⟩
      ⟨some 3, [2]⟩).2.2.2.2.2.2.2 rfl rfl,
   (C8_union_first_match unionA unionB [] 5 0 ⟨some 2, [1]⟩
      ⟨some 3, [2]⟩).2.1 (by intro m hm; cases hm)⟩

/-- C9: behavior of the `SupressInputMachine` methods as written: `input`
returns no transition exactly when the predicate holds for the input and
otherwise delegates, while `startup` and `quiesce` delegate unchanged. (The
source's constructor is misspelled `__int__`, so the class cannot actually be
constructed with a machine and predicate; this theorem captures the behavior
its methods implement.) -/
theorem C9_suppress_behavior {S I O : Type} (machine : StateMachine S I O)
    (ignore : I → Bool) (s : S) (x : I) :
    (SupressInputMachine machine ignore).input s x =
        (if ignore x then none else machine.input s x) ∧
    (SupressInputMachine machine ignore).startup s = machine.startup s ∧
    (SupressInputMachine machine ignore).quiesce s = machine.quiesce s :=
  ⟨rfl, rfl, rfl⟩

/-- The state carried by an optional transition, if any. -/
def stateOf {S O : Type} (t : Option (StateTransition S O)) : Option S :=
  t.bind fun tr => tr.state

/-- C10: during the one-time bootstrap injection, the delegated call runs on
the caller's original state argument (not on the bootstrap transition's state),
and because concatenation prefers the later transition's state, the bootstrap's
resulting state is the state of the returned transition exactly in the cases
where the delegated call yields no transition or a transition without a new
state; when the delegated call carries a new state, that state wins. -/
theorem C10_bootstrap_state_preference {S I O : Type}
    (machine : StateMachine S I O) (x0 : I) (s : S) (c : Call I)
    (t0 : StateTransition S O) (sb : S) :
    ((InitialInputMachine.applyCall ⟨machine, x0, false⟩ s c).2 =
        StateMachine.concatenate (machine.process_input s x0)
          (machine.applyCall s c)) ∧
    (machine.process_input s x0 = some t0 → t0.state = some sb →
      ((machine.applyCall s c = none →
          stateOf (InitialInputMachine.applyCall ⟨machine, x0, false⟩ s c).2 =
            some sb) ∧
       (∀ tu : StateTransition S O, machine.applyCall s c = some tu →
          tu.state = none →
          stateOf (InitialInputMachine.applyCall ⟨machine, x0, false⟩ s c).2 =
            some sb) ∧
       (∀ (tu : StateTransition S O) (su : S),
          machine.applyCall s c = some tu → tu.state = some su →
          stateOf (InitialInputMachine.applyCall ⟨machine, x0, false⟩ s c).2 =
            some su))) := by
  have hdeleg : (InitialInputMachine.applyCall ⟨machine, x0, false⟩ s c).2 =
      StateMachine.concatenate (machine.process_input s x0)
        (machine.applyCall s c) := by
    cases c <;> rfl
  refine ⟨hdeleg, ?_⟩
  intro h0 hs0
  have hbase : (InitialInputMachine.applyCall ⟨machine, x0, false⟩ s c).2 =
      StateMachine.concatenate (some t0) (machine.applyCall s c) := by
    rw [hdeleg, h0]
  refine ⟨?_, ?_, ?_⟩
  · intro hd
    rw [hbase, hd]
    simp [StateMachine.concatenate, stateOf, hs0]
  · intro tu hd hts
    rw [hbase, hd]
    simp [StateMachine.concatenate, stateOf, hts, hs0]
  · intro tu su hd hts
    rw [hbase, hd]
    simp [StateMachine.concatenate, stateOf, hts]

/-- Witness for C10 at a concrete machine: the bootstrap runs `process_input`
on input 2 from state 1, and the delegated `quiesce` (on the original state 1)
carries a new state 2, which wins over the bootstrap's state 5. -/
theorem C10_bootstrap_state_preference_witness :
    stateOf (InitialInputMachine.applyCall ⟨alwaysM, 2, false⟩ 1
        Call.quiesceCall).2 = some 2 :=
  ((C10_bootstrap_state_preference alwaysM 2 1 Call.quiesceCall
      ⟨some 5, [8, 9, 9]⟩ 5).2 (by decide) (by decide)).2.2
    ⟨some 2, [9]⟩ 2 (by decide) (by decide)

/-- Embeds `ModalState` of modal_machine.py: the underlying state plus current
and target modes. (The `_test_mode` diagnostic hook only gates console
printing and never affects transition outcomes, so it is not modelled.) -/
structure ModalState (S M : Type) where
  state : S
  current_mode : M
  target_mode : M
deriving DecidableEq, Repr

/-- Embeds `ModalState.transition_to_target_mode`: advance `current_mode` to
the old `target_mode`, set `target_mode` to `next_target_mode` when given, else
keep it; return nothing when that changes neither field. -/
def ModalState.transition_to_target_mode {S M : Type} [DecidableEq M]
    (self : ModalState S M) (next_target_mode : Option M) :
    Option (ModalState S M) :=
  let current_mode := self.target_mode
  let target_mode := next_target_mode.getD self.target_mode
  if self.current_mode = current_mode ∧ self.target_mode = target_mode then
    none
  else
    some { self with current_mode := current_mode, target_mode := target_mode }

/-- Embeds `ModalState.with_target_mode`: update the target mode, returning
nothing when it is already the target. -/
def ModalState.with_target_mode {S M : Type} [DecidableEq M]
    (self : ModalState S M) (target_mode : M) : Option (ModalState S M) :=
  if self.target_mode = target_mode then none
  else some { self with target_mode := target_mode }

/-- Embeds `ModalInput` of modal_machine.py: either a pass-through underlying
input or a request to set the target mode (`ModeInput`). -/
inductive ModalInput (I M : Type) where
  | Input : I → ModalInput I M
  | ModeInput : M → ModalInput I M

/-- Embeds `ModalOutput` of modal_machine.py: either a wrapped underlying
output or a mode-change announcement (`ModeOutput`). -/
inductive ModalOutput (O M : Type) where
  | Output : O → ModalOutput O M
  | ModeOutput : M → M → ModalOutput O M
deriving DecidableEq, Repr

/-- The state field of a transition returned by the modal machine. Every path
of the source builds a full `ModalState` there except the `ModeInput` branch of
`ModalMachine.input`, which (as written) stores the bare underlying state
`state.state`; the embedding keeps both possibilities explicit. -/
inductive MState (S M : Type) where
  | modal : ModalState S M → MState S M
  | raw : S → MState S M
deriving DecidableEq, Repr

/-- Embeds `TransitionAllowed`: presence means the mode transition is
permitted; `next_target_mode` optionally redirects the target. -/
structure TransitionAllowed (M : Type) where
  next_target_mode : Option M
deriving DecidableEq

/-- Embeds the `ModeMachines` provider contract: the mode-machine table and the
mode-transition permission check. -/
structure ModeMachines (S M I O : Type) where
  mode_machine : M → M → Option (StateMachine S I O)
  can_transition_to_target_mode :
    ModalState S M → Option (TransitionAllowed M)

/-- Embeds `ModalMachine._mode_machine`: look up the mode machine for the
state's `(current_mode, target_mode)` pair. -/
def ModalMachine.mode_machine_for {S M I O : Type}
    (mode_machines : ModeMachines S M I O) (state : ModalState S M) :
    Option (StateMachine S I O) :=
  mode_machines.mode_machine state.current_mode state.target_mode

/-- Embeds `ModalMachine._is_invalid_mode_transition` exactly as written: it
returns whether a mode machine IS defined for the pair (`... is not None`),
although its name and its comment say it should report the opposite. -/
def ModalMachine.is_invalid_mode_transition {S M I O : Type}
    (mode_machines : ModeMachines S M I O) (current_mode target_mode : M) :
    Bool :=
  (mode_machines.mode_machine current_mode target_mode).isSome

/-- Embeds `ModalMachine._transition_to_target_mode`: nothing when the state is
stable or the provider denies the transition or the one-hop update changes
nothing; otherwise a transition carrying the advanced modal state and exactly
one `ModeOutput` announcing the new `(current_mode, target_mode)`. -/
def ModalMachine.transition_to_target_mode {S M I O : Type} [DecidableEq M]
    (mode_machines : ModeMachines S M I O) (state : ModalState S M) :
    Option (StateTransition (MState S M) (ModalOutput O M)) :=
  if state.current_mode = state.target_mode then none
  else
    match mode_machines.can_transition_to_target_mode state with
    | none => none
    | some allowed =>
        match state.transition_to_target_mode allowed.next_target_mode with
        | none => none
        | some next_state =>
            some { state := some (MState.modal next_state),
                   outputs := [ModalOutput.ModeOutput next_state.current_mode
                       next_state.target_mode] }

/-- Embeds `ModalMachine._modal` exactly as written: wrap the underlying
outputs as `Output`s; when the underlying transition carries a state, the
result's state is a `ModalState` rebuilt from the INPUT modal state's fields
(`state.state` and the old modes) -- the underlying transition's state is
never used. -/
def ModalMachine.modal {S M O : Type} (state : ModalState S M)
    (transition : Option (StateTransition S O)) :
    Option (StateTransition (MState S M) (ModalOutput O M)) :=
  match transition with
  | none => none
  | some t =>
      match t.state with
      | none => some { state := none,
                       outputs := t.outputs.map ModalOutput.Output }
      | some _ =>
          some { state := some (MState.modal
                     ⟨state.state, state.current_mode, state.target_mode⟩),
                 outputs := t.outputs.map ModalOutput.Output }

/-- Embeds `ModalMachine.startup` exactly as written: when the mode-transition
step yields nothing, return nothing; otherwise DISCARD that step's transition,
look up the mode machine for the OLD `(current_mode, target_mode)` pair, and
return the `_modal`-wrapped underlying `startup` run on the old underlying
state. -/
def ModalMachine.startup {S M I O : Type} [DecidableEq M]
    (mode_machines : ModeMachines S M I O) (state : ModalState S M) :
    Option (StateTransition (MState S M) (ModalOutput O M)) :=
  match ModalMachine.transition_to_target_mode (O := O) mode_machines state with
  | none => none
  | some _ =>
      match ModalMachine.mode_machine_for mode_machines state with
      | none => none
      | some machine => ModalMachine.modal state (machine.startup state.state)

/-- Embeds `ModalMachine.quiesce` exactly as written; same structure as
`startup` (the source's only difference is `is None` versus `not`, which
coincide on transitions). -/
def ModalMachine.quiesce {S M I O : Type} [DecidableEq M]
    (mode_machines : ModeMachines S M I O) (state : ModalState S M) :
    Option (StateTransition (MState S M) (ModalOutput O M)) :=
  match ModalMachine.transition_to_target_mode (O := O) mode_machines state with
  | none => none
  | some _ =>
      match ModalMachine.mode_machine_for mode_machines state with
      | none => none
      | some machine => ModalMachine.modal state (machine.quiesce state.state)

/-- Embeds `ModalMachine.input` exactly as written. `ModeInput m`: return
nothing when `_is_invalid_mode_transition` reports true (which, as embedded, is
when a machine IS registered for `(current_mode, m)`) or when `m` is already
the target; otherwise a transition whose state is the BARE underlying state
(`state=state.state` in the source) and whose outputs are one `ModeOutput` with
the unchanged `current_mode` and the new target `m`. `Input x`: look up the
machine for the current pair and `_modal`-wrap its `input` result. -/
def ModalMachine.input {S M I O : Type} [DecidableEq M]
    (mode_machines : ModeMachines S M I O) (state : ModalState S M)
    (inp : ModalInput I M) :
    Option (StateTransition (MState S M) (ModalOutput O M)) :=
  match inp with
  | .ModeInput m =>
      if ModalMachine.is_invalid_mode_transition mode_machines
          state.current_mode m then none
      else
        match state.with_target_mode m with
        | none => none
        | some next_state =>
            some { state := some (MState.raw state.state),
                   outputs := [ModalOutput.ModeOutput next_state.current_mode
                       next_state.target_mode] }
  | .Input x =>
      match ModalMachine.mode_machine_for mode_machines state with
      | none => none
      | some machine => ModalMachine.modal state (machine.input state.state x)

/-- An underlying machine registered for the stable pair `(0, 0)`; all of its
operations produce transitions, so delegation to it is observable. -/
def underA : StateMachine Nat Nat Nat where
  startup s := some ⟨some (s + 2), [10]⟩
  input s i := some ⟨some (s + i), [11]⟩
  quiesce s := some ⟨some (s + 1), [12]⟩

/-- A mode-machine table with `underA` registered for the stable pair `(0, 0)`
and every mode transition denied. -/
def mmStable : ModeMachines Nat Nat Nat Nat where
  mode_machine c t := if c = 0 ∧ t = 0 then some underA else none
  can_transition_to_target_mode _ := none

/-- The underlying machine registered for the in-transition pair `(0, 1)`. -/
def underOld : StateMachine Nat Nat Nat where
  startup _ := some ⟨some 6, [10]⟩
  input _ _ := none
  quiesce _ := some ⟨some 6, [13]⟩

/-- The underlying machine registered for the settled pair `(1, 1)`; its
outputs differ from `underOld`'s so the pair used for lookup is observable. -/
def underNew : StateMachine Nat Nat Nat where
  startup _ := some ⟨some 8, [20]⟩
  input _ _ := none
  quiesce _ := some ⟨some 8, [23]⟩

/-- A mode-machine table where the pending transition `0 -> 1` is always
permitted (with no redirection), `underOld` serves `(0, 1)` and `underNew`
serves `(1, 1)`. -/
def mmPending : ModeMachines Nat Nat Nat Nat where
  mode_machine c t :=
    if c = 0 ∧ t = 1 then some underOld
    else if c = 1 ∧ t = 1 then some underNew
    else none
  can_transition_to_target_mode _ := some ⟨none⟩

/-- C3: `ModalMachine.startup`/`quiesce` do not behave as claimed. From the
stable state `(5, 0, 0)` -- where a mode machine is registered and its
`startup`/`quiesce` would produce transitions -- both operations return no
transition at all instead of delegating. From the in-transition state
`(5, 0, 1)` with the mode step permitted, the mode step itself computes the
advanced state `(5, 1, 1)` and its `ModeChanged` output, but `startup` discards
that transition: the result carries no `ModeChanged` output, keeps the OLD
modes `(0, 1)` and old underlying state, and delegates to the machine of the
OLD pair (`underOld`, output 10) rather than the updated pair (`underNew`,
output 20). -/
theorem C3_modal_startup_quiesce_divergence :
    ModalMachine.startup mmStable ⟨5, 0, 0⟩ = none ∧
    ModalMachine.quiesce mmStable ⟨5, 0, 0⟩ = none ∧
    (mmStable.mode_machine 0 0).isSome = true ∧
    underA.startup 5 = some ⟨some 7, [10]⟩ ∧
    underA.quiesce 5 = some ⟨some 6, [12]⟩ ∧
    ModalMachine.transition_to_target_mode (O := Nat) mmPending ⟨5, 0, 1⟩ =
      some ⟨some (MState.modal ⟨5, 1, 1⟩), [ModalOutput.ModeOutput 1 1]⟩ ∧
    ModalMachine.startup mmPending ⟨5, 0, 1⟩ =
      some ⟨some (MState.modal ⟨5, 0, 1⟩), [ModalOutput.Output 10]⟩ ∧
    ModalMachine.quiesce mmPending ⟨5, 0, 1⟩ =
      some ⟨some (MState.modal ⟨5, 0, 1⟩), [ModalOutput.Output 13]⟩ ∧
    underNew.startup 5 = some ⟨some 8, [20]⟩ := by
  refine ⟨?_, ?_, ?_, ?_, ?_, ?_, ?_, ?_, ?_⟩ <;> decide

/-- A mode-machine table with a machine registered exactly for the pair
`(0, 1)`, used to exercise mode-change requests. -/
def mmReq : ModeMachines Nat Nat Nat Nat where
  mode_machine c t := if c = 0 ∧ t = 1 then some underOld else none
  can_transition_to_target_mode _ := none

/-- C4: mode-request handling is inverted. Requesting mode 1 from
`(5, 0, 0)` -- the pair `(0, 1)` HAS a registered machine, so the claim says
the request must succeed with one `ModeChanged(0, 1)` -- is rejected with no
transition, because `_is_invalid_mode_transition` returns `is not None`.
Requesting mode 2 -- NO machine for `(0, 2)`, so the claim says silent
rejection -- instead produces a transition, and one whose state is the bare
underlying state `5` rather than a modal state with the target updated. The
idempotent case (requesting the current target 0) returns no transition, but
only because `(0, 0)` is also unregistered. -/
theorem C4_mode_request_divergence :
    (mmReq.mode_machine 0 1).isSome = true ∧
    ModalMachine.input mmReq ⟨5, 0, 0⟩ (ModalInput.ModeInput 1) = none ∧
    (mmReq.mode_machine 0 2).isSome = false ∧
    ModalMachine.input mmReq ⟨5, 0, 0⟩ (ModalInput.ModeInput 2) =
      some ⟨some (MState.raw 5), [ModalOutput.ModeOutput 0 2]⟩ ∧
    ModalMachine.input mmReq ⟨5, 0, 0⟩ (ModalInput.ModeInput 0) = none := by
  refine ⟨?_, ?_, ?_, ?_, ?_⟩ <;> decide

/-- An underlying machine whose `input` moves the state and emits an output,
registered below for the pair `(0, 0)`. -/
def underInp : StateMachine Nat Nat Nat where
  startup _ := none
  input s i := some ⟨some (s + i), [s * 2]⟩
  quiesce _ := none

/-- A mode-machine table with `underInp` registered for `(0, 0)` only. -/
def mmPlain : ModeMachines Nat Nat Nat Nat where
  mode_machine c t := if c = 0 ∧ t = 0 then some underInp else none
  can_transition_to_target_mode _ := none

/-- C5: plain-input delegation loses the new underlying state. From
`(5, 0, 0)`, the registered machine's `input` returns the new underlying state
8 with output 10; the modal result wraps the output correctly and keeps the
mode fields, but its state is the modal state rebuilt from the OLD underlying
state 5 -- `_modal` tests `transition.state` and then never uses it. The
unregistered-pair case does return no transition as claimed. -/
theorem C5_plain_input_divergence :
    underInp.input 5 3 = some ⟨some 8, [10]⟩ ∧
    ModalMachine.input mmPlain ⟨5, 0, 0⟩ (ModalInput.Input 3) =
      some ⟨some (MState.modal ⟨5, 0, 0⟩), [ModalOutput.Output 10]⟩ ∧
    ModalMachine.input mmPlain ⟨5, 1, 1⟩ (ModalInput.Input 3) = none := by
  refine ⟨?_, ?_, ?_⟩ <;> decide
